import Mathlib

/-!
Verification of the real-time statistics subsystem of a Go product-catalog
API: the snapshot cache (`StatsCache`, file `internal/storage/cache`), and
the aggregator / read paths of the statistics use case (`statsUseCase`,
file `internal/business/usecase`).

Modelling conventions:
* Go `map[uint]int` is an association list `CountMap` with distinct keys
  (a Go map can never hold a duplicate key); `map[string]interface{}` is
  modelled as a lookup function `String → Option CacheVal`, since the
  scalar part of the cache is only ever read by key.
* Go `interface{}` values actually stored by this subsystem are covered by
  the sum type `CacheVal` (int64 scalars, the float64 average rating — only
  ever stored and retrieved, never computed with, so an exact rational
  carrier is faithful — the top-product list, and the formatted timestamp).
* `time.Now()` is an explicit `now : Nat` argument to every operation that
  reads the clock; `time.Time.Format(RFC3339)` is modelled by the injective
  encoding `rfc3339`.
* Errors (`error` values) are `GoError`; fallible calls return `Except`.
* Repositories are external collaborators: each use-case operation takes
  the outcome of the repository calls it makes as an explicit argument.
-/

namespace ProductStats

/-- A Go `error` value, identified by its message. -/
structure GoError where
  msg : String
deriving DecidableEq, Repr

/-- `entity.TopProduct` (fields ProductID, ProductName, Count, Metric). -/
structure TopProduct where
  productID : Nat
  productName : String
  count : Int
  metric : String
deriving DecidableEq, Repr

/-- `entity.Category`; the statistics code reads only ID and Name. -/
structure Category where
  id : Nat
  name : String
deriving DecidableEq, Repr

/-- `entity.Product`; the statistics code reads only ID and Name. -/
structure Product where
  id : Nat
  name : String
deriving DecidableEq, Repr

/-- `entity.CategoryStat`. -/
structure CategoryStat where
  categoryID : Nat
  categoryName : String
  productCount : Int
deriving DecidableEq, Repr

/-- `entity.WishlistStat`. -/
structure WishlistStat where
  productID : Nat
  productName : String
  wishlistCount : Int
deriving DecidableEq, Repr

/-- The `interface{}` values this subsystem stores in `StatsCache.data`. -/
inductive CacheVal where
  | vInt (n : Int)
  | vFloat (q : ℚ)
  | vTop (ps : List TopProduct)
  | vStr (s : String)
deriving DecidableEq, Repr

/-- A Go `map[uint]int`, as an association list. -/
abbrev CountMap := List (Nat × Int)

/-- Lookup in a Go map: `v, ok := m[k]`. -/
def mapLookup (m : CountMap) (k : Nat) : Option Int :=
  (m.find? (fun p => p.1 == k)).map Prod.snd

/-- Go map assignment `m[k] = v`: replace an existing binding, else add one. -/
def mapInsert (m : CountMap) (k : Nat) (v : Int) : CountMap :=
  if (m.find? (fun p => p.1 == k)).isSome then
    m.map (fun p => if p.1 == k then (k, v) else p)
  else
    m ++ [(k, v)]

/-- The Go copy loop `out := make(map...); for k, v := range m { out[k] = v }`. -/
def goMapCopy (m : CountMap) : CountMap :=
  m.foldl (fun acc p => mapInsert acc p.1 p.2) []

/-- Injective model of `time.Time.Format(time.RFC3339)`. -/
def rfc3339 (t : Nat) : String :=
  "ts:" ++ toString t

/-- `cache.StatsCache`: scalar data, the two auxiliary count maps, and the
last-refreshed timestamp.  The mutex only serialises individual method
calls; it is not part of the sequential state. -/
structure StatsCache where
  data : String → Option CacheVal
  categoryCounts : CountMap
  wishlistCounts : CountMap
  lastRefreshed : Nat

/-- `cache.NewStatsCache`: empty maps, zero timestamp. -/
def NewStatsCache : StatsCache :=
  { data := fun _ => none, categoryCounts := [], wishlistCounts := [], lastRefreshed := 0 }

/-- `StatsCache.Set`: store one scalar value and stamp `lastRefreshed`. -/
def StatsCache.Set (c : StatsCache) (key : String) (v : CacheVal) (now : Nat) : StatsCache :=
  { c with data := fun k => if k = key then some v else c.data k, lastRefreshed := now }

/-- `StatsCache.Get`: point lookup; `none` models `exists = false`. -/
def StatsCache.Get (c : StatsCache) (key : String) : Option CacheVal :=
  c.data key

/-- `StatsCache.GetAll`: a copy of the scalar data with the synthesized
`last_refreshed` entry (which overrides any stored key of that name). -/
def StatsCache.GetAll (c : StatsCache) : String → Option CacheVal :=
  fun k => if k = "last_refreshed" then some (.vStr (rfc3339 c.lastRefreshed)) else c.data k

/-- `StatsCache.SetCategoryCounts`: defensive copy in, stamp `lastRefreshed`. -/
def StatsCache.SetCategoryCounts (c : StatsCache) (counts : CountMap) (now : Nat) : StatsCache :=
  { c with categoryCounts := goMapCopy counts, lastRefreshed := now }

/-- `StatsCache.GetCategoryCounts`: defensive copy out. -/
def StatsCache.GetCategoryCounts (c : StatsCache) : CountMap :=
  goMapCopy c.categoryCounts

/-- `StatsCache.SetWishlistCounts`: defensive copy in, stamp `lastRefreshed`. -/
def StatsCache.SetWishlistCounts (c : StatsCache) (counts : CountMap) (now : Nat) : StatsCache :=
  { c with wishlistCounts := goMapCopy counts, lastRefreshed := now }

/-- `StatsCache.GetWishlistCounts`: defensive copy out. -/
def StatsCache.GetWishlistCounts (c : StatsCache) : CountMap :=
  goMapCopy c.wishlistCounts

/-- `StatsCache.Clear`: reset every field, stamp `lastRefreshed`. -/
def StatsCache.Clear (_c : StatsCache) (now : Nat) : StatsCache :=
  { data := fun _ => none, categoryCounts := [], wishlistCounts := [], lastRefreshed := now }

/-- `StatsCache.GetLastRefreshed`. -/
def StatsCache.GetLastRefreshed (c : StatsCache) : Nat :=
  c.lastRefreshed

/-! Basic facts about the Go-map model: copying an association list with
distinct keys reproduces it exactly. -/

theorem find?_eq_none_of_not_mem_keys {m : CountMap} {k : Nat}
    (h : k ∉ m.map Prod.fst) : m.find? (fun p => p.1 == k) = none := by
  apply List.find?_eq_none.mpr
  intro p hp
  simp only [beq_iff_eq]
  intro hpk
  exact h (by exact List.mem_map.mpr ⟨p, hp, hpk⟩)

theorem mapInsert_of_not_mem_keys {m : CountMap} {k : Nat} (v : Int)
    (h : k ∉ m.map Prod.fst) : mapInsert m k v = m ++ [(k, v)] := by
  unfold mapInsert
  rw [find?_eq_none_of_not_mem_keys h]
  rfl

theorem foldl_mapInsert_eq_append (m acc : CountMap)
    (hnd : (m.map Prod.fst).Nodup)
    (hdisj : ∀ k ∈ m.map Prod.fst, k ∉ acc.map Prod.fst) :
    m.foldl (fun a p => mapInsert a p.1 p.2) acc = acc ++ m := by
  induction m generalizing acc with
  | nil => simp
  | cons p t ih =>
    have hk : p.1 ∉ acc.map Prod.fst := hdisj p.1 (by simp)
    have hnd' : (t.map Prod.fst).Nodup := (List.nodup_cons.mp (by simpa using hnd)).2
    have hp1t : p.1 ∉ t.map Prod.fst := (List.nodup_cons.mp (by simpa using hnd)).1
    have hstep : mapInsert acc p.1 p.2 = acc ++ [p] := by
      rw [mapInsert_of_not_mem_keys p.2 hk]
    rw [List.foldl_cons, hstep, ih (acc ++ [p]) hnd']
    · simp
    · intro k hkt
      simp only [List.map_append, List.mem_append] at *
      rintro (hka | hkp)
      · exact hdisj k (by simp [hkt]) hka
      · simp at hkp
        exact hp1t (hkp ▸ hkt)

theorem goMapCopy_eq_self {m : CountMap} (hnd : (m.map Prod.fst).Nodup) :
    goMapCopy m = m := by
  unfold goMapCopy
  rw [foldl_mapInsert_eq_append m [] hnd (by simp)]
  simp

/-! The statistics use case (`usecase.statsUseCase`).  Its sequential state
is the cache it owns, the `lastRefresh` time and the configured
`refreshTimeout`; the repositories are external, so each operation takes
the outcomes of the repository calls it performs as arguments. -/

/-- `usecase.statsUseCase` state. -/
structure StatsUseCase where
  cache : StatsCache
  lastRefresh : Nat
  refreshTimeout : Nat

/-- Outcome of `productRepo.List(ctx, filter)`: `([]Product, int64, error)`. -/
abbrev ListResult := Except GoError (List Product × Int)

/-- `statsUseCase.RefreshStats`.  The four fan-out tasks are joined before
any error check, so the cycle is sequentialised: the product-count task is
the only fallible one (the category-counts, wishlist-counts and
top-products tasks are `TODO` stubs that always succeed with empty
results, and the user-count / review-count / average-rating error slots
are declared but never assigned, hence always nil).  On any task error the
function returns before any cache write; on success it performs the seven
cache writes of lines 322–328 and stamps `lastRefresh`. -/
def StatsUseCase.RefreshStats (uc : StatsUseCase) (listRes : ListResult) (now : Nat) :
    Except GoError Unit × StatsUseCase :=
  match listRes with
  | .error e => (.error e, uc)
  | .ok (_, productCount) =>
    let c := uc.cache.Set ("total_products") (.vInt productCount) now
    let c := c.Set ("total_users") (.vInt 0) now
    let c := c.Set ("total_reviews") (.vInt 0) now
    let c := c.Set ("average_rating") (.vFloat 0) now
    let c := c.Set ("top_products") (.vTop []) now
    let c := c.SetCategoryCounts [] now
    let c := c.SetWishlistCounts [] now
    (.ok (), { uc with cache := c, lastRefresh := now })

/-- `statsUseCase.GetStats`: refresh when stale (`time.Since(lastRefresh) >
refreshTimeout`), propagating a refresh error, else serve `cache.GetAll()`. -/
def StatsUseCase.GetStats (uc : StatsUseCase) (listRes : ListResult) (now : Nat) :
    Except GoError (String → Option CacheVal) × StatsUseCase :=
  if uc.refreshTimeout < now - uc.lastRefresh then
    match uc.RefreshStats listRes now with
    | (.error e, uc') => (.error e, uc')
    | (.ok _, uc') => (.ok uc'.cache.GetAll, uc')
  else
    (.ok uc.cache.GetAll, uc)

/-- The name-resolution loop of `GetCategoryStats`: start from "Unknown",
take the name of the first category whose ID matches. -/
def resolveCategoryName (categories : List Category) (id : Nat) : String :=
  match categories.find? (fun cat => cat.id == id) with
  | some cat => cat.name
  | none => "Unknown"

/-- `statsUseCase.GetCategoryStats`: refresh when the cached map is empty
(propagating a refresh error), then join the counts against
`categoryRepo.List` (whose outcome is `catsRes`), resolving missing IDs to
"Unknown". -/
def StatsUseCase.GetCategoryStats (uc : StatsUseCase) (listRes : ListResult)
    (catsRes : Except GoError (List Category)) (now : Nat) :
    Except GoError (List CategoryStat) × StatsUseCase :=
  let categoryCounts := uc.cache.GetCategoryCounts
  if categoryCounts.length = 0 then
    match uc.RefreshStats listRes now with
    | (.error e, uc') => (.error e, uc')
    | (.ok _, uc') =>
      match catsRes with
      | .error e => (.error e, uc')
      | .ok categories =>
        (.ok (uc'.cache.GetCategoryCounts.map
          (fun p => ⟨p.1, resolveCategoryName categories p.1, p.2⟩)), uc')
  else
    match catsRes with
    | .error e => (.error e, uc)
    | .ok categories =>
      (.ok (categoryCounts.map
        (fun p => ⟨p.1, resolveCategoryName categories p.1, p.2⟩)), uc)

/-- The per-entry collection loop of `GetWishlistStats`: for each counted
product, look it up (`findByID` is the outcome of `productRepo.FindByID`
per ID); a lookup error or a nil product skips the entry.  The Go code
runs the lookups in goroutines and appends under a local mutex, so the
order of `stats` is scheduler-dependent; the model fixes map-iteration
order, which determines the same multiset of entries. -/
def wishlistStep (findByID : Nat → Except GoError (Option Product))
    (stats : List WishlistStat) (p : Nat × Int) : List WishlistStat :=
  match findByID p.1 with
  | .error _ => stats
  | .ok none => stats
  | .ok (some product) => stats ++ [⟨p.1, product.name, p.2⟩]

/-- The whole collection loop of `GetWishlistStats`. -/
def collectWishlistStats (findByID : Nat → Except GoError (Option Product))
    (counts : CountMap) : List WishlistStat :=
  counts.foldl (wishlistStep findByID) []

/-- `statsUseCase.GetWishlistStats`: refresh when the cached map is empty
(propagating a refresh error), then collect per-product entries, skipping
failed or empty lookups. -/
def StatsUseCase.GetWishlistStats (uc : StatsUseCase) (listRes : ListResult)
    (findByID : Nat → Except GoError (Option Product)) (now : Nat) :
    Except GoError (List WishlistStat) × StatsUseCase :=
  let wishlistCounts := uc.cache.GetWishlistCounts
  if wishlistCounts.length = 0 then
    match uc.RefreshStats listRes now with
    | (.error e, uc') => (.error e, uc')
    | (.ok _, uc') =>
      (.ok (collectWishlistStats findByID uc'.cache.GetWishlistCounts), uc')
  else
    (.ok (collectWishlistStats findByID wishlistCounts), uc)

/-- `statsUseCase.GetTopProducts`.  The `limit` parameter is received and
never read by the Go function.  Serve the cached `top_products` value when
it is present and of the expected type; otherwise refresh once
(propagating a refresh error), retry the cache, and fall back to an empty
list.  The final `Nat` instruments how many refresh attempts were made. -/
def StatsUseCase.GetTopProducts (uc : StatsUseCase) (listRes : ListResult) (now : Nat)
    (limit : Int) : (Except GoError (List TopProduct) × StatsUseCase) × Nat :=
  match uc.cache.Get ("top_products") with
  | some (.vTop topProducts) => ((.ok topProducts, uc), 0)
  | _ =>
    match uc.RefreshStats listRes now with
    | (.error e, uc') => ((.error e, uc'), 1)
    | (.ok _, uc') =>
      match uc'.cache.Get ("top_products") with
      | some (.vTop topProducts) => ((.ok topProducts, uc'), 1)
      | _ => ((.ok [], uc'), 1)

/-! Interleaving model for concurrent reads against one refresh.  Each
`StatsCache` method acquires and releases the cache mutex on its own, and
the use-case mutex is not held by readers while they call into the cache,
so a concurrent `GetAll` may run between any two of the seven cache writes
a refresh performs.  An observation point `k` reads the cache after the
first `k` writes of the cycle. -/

/-- One atomic cache write (one mutex acquisition) of the refresh cycle. -/
inductive CacheOp where
  | setVal (key : String) (v : CacheVal)
  | setCat (counts : CountMap)
  | setWish (counts : CountMap)

/-- Apply one atomic cache write. -/
def applyOp (c : StatsCache) (op : CacheOp) (now : Nat) : StatsCache :=
  match op with
  | .setVal key v => c.Set key v now
  | .setCat counts => c.SetCategoryCounts counts now
  | .setWish counts => c.SetWishlistCounts counts now

/-- Apply a sequence of atomic cache writes. -/
def applyOps (c : StatsCache) (ops : List CacheOp) (now : Nat) : StatsCache :=
  ops.foldl (fun s op => applyOp s op now) c

/-- The write phase of one successful refresh cycle, as the Go code issues
it (lines 322–328), for a cycle whose product-count task returned
`productCount`. -/
def refreshWrites (productCount : Int) : List CacheOp :=
  [.setVal ("total_products") (.vInt productCount),
   .setVal ("total_users") (.vInt 0),
   .setVal ("total_reviews") (.vInt 0),
   .setVal ("average_rating") (.vFloat 0),
   .setVal ("top_products") (.vTop []),
   .setCat [],
   .setWish []]

/-- Sanity link between the two presentations of the refresh cycle: the
cache a successful `RefreshStats` leaves behind is exactly the write
sequence `refreshWrites` applied in order. -/
theorem refreshStats_cache_eq_applyOps (uc : StatsUseCase) (ps : List Product)
    (productCount : Int) (now : Nat) :
    (uc.RefreshStats (.ok (ps, productCount)) now).2.cache =
      applyOps uc.cache (refreshWrites productCount) now := rfl

/-! Claim theorems. -/

/-- C1: if a metric-source task of the refresh cycle reports an error (the
product-count task is the one fallible task of this cycle), `RefreshStats`
returns that error and the Snapshot Cache is untouched: the scalar data,
both auxiliary count maps, the cache's `lastRefreshed` timestamp and the
use case's `lastRefresh` time are all unchanged from before the call. -/
theorem refreshStats_error_writes_nothing (uc : StatsUseCase) (e : GoError) (now : Nat) :
    (uc.RefreshStats (.error e) now).1 = .error e ∧
    (uc.RefreshStats (.error e) now).2.cache.data = uc.cache.data ∧
    (uc.RefreshStats (.error e) now).2.cache.categoryCounts = uc.cache.categoryCounts ∧
    (uc.RefreshStats (.error e) now).2.cache.wishlistCounts = uc.cache.wishlistCounts ∧
    (uc.RefreshStats (.error e) now).2.cache.GetLastRefreshed = uc.cache.GetLastRefreshed ∧
    (uc.RefreshStats (.error e) now).2 = uc :=
  ⟨rfl, rfl, rfl, rfl, rfl, rfl⟩

/-- C8: `Clear` followed immediately by `GetAll` yields a mapping holding
no scalar entry, only the synthesized `last_refreshed` field, whose value
is the formatted time of the `Clear` call. -/
theorem clear_getAll_empty (c : StatsCache) (now : Nat) (k : String)
    (hk : k ≠ "last_refreshed") :
    (c.Clear now).GetAll "last_refreshed" = some (.vStr (rfc3339 now)) ∧
    (c.Clear now).GetAll k = none ∧
    (c.Clear now).GetLastRefreshed = now := by
  refine ⟨rfl, ?_, rfl⟩
  unfold StatsCache.Clear StatsCache.GetAll
  rw [if_neg hk]

/-- Witness for C8 at a concrete populated cache and clear time 7. -/
theorem clear_getAll_empty_witness :
    ((StatsCache.mk (fun _ => some (.vInt 1)) [(1, 1)] [(2, 2)] 3).Clear 7).GetAll
        "last_refreshed" = some (.vStr (rfc3339 7)) ∧
    ((StatsCache.mk (fun _ => some (.vInt 1)) [(1, 1)] [(2, 2)] 3).Clear 7).GetAll
        "total_products" = none ∧
    ((StatsCache.mk (fun _ => some (.vInt 1)) [(1, 1)] [(2, 2)] 3).Clear 7).GetLastRefreshed
        = 7 :=
  clear_getAll_empty (StatsCache.mk (fun _ => some (.vInt 1)) [(1, 1)] [(2, 2)] 3) 7
    "total_products" (by decide)

/-- C9: for a mapping with distinct keys (every Go map iterates with
distinct keys), `SetCategoryCounts` followed by `GetCategoryCounts`
returns a mapping equal to the input, and likewise for the wishlist pair:
the wholesale replacement round-trips through both defensive copies. -/
theorem setCounts_getCounts_roundtrip (c : StatsCache) (m : CountMap) (now : Nat)
    (hnd : (m.map Prod.fst).Nodup) :
    (c.SetCategoryCounts m now).GetCategoryCounts = m ∧
    (c.SetWishlistCounts m now).GetWishlistCounts = m := by
  constructor
  · show goMapCopy (goMapCopy m) = m
    rw [goMapCopy_eq_self hnd, goMapCopy_eq_self hnd]
  · show goMapCopy (goMapCopy m) = m
    rw [goMapCopy_eq_self hnd, goMapCopy_eq_self hnd]

/-- Witness for C9 at a concrete two-entry mapping. -/
theorem setCounts_getCounts_roundtrip_witness :
    (NewStatsCache.SetCategoryCounts [(1, 2), (3, 4)] 5).GetCategoryCounts = [(1, 2), (3, 4)] ∧
    (NewStatsCache.SetWishlistCounts [(1, 2), (3, 4)] 5).GetWishlistCounts = [(1, 2), (3, 4)] :=
  setCounts_getCounts_roundtrip NewStatsCache [(1, 2), (3, 4)] 5 (by decide)

/-- C10: the `limit` argument of `GetTopProducts` has no effect on the
result, and whenever a top-product list is cached the call returns that
full cached list. -/
theorem getTopProducts_ignores_limit (uc : StatsUseCase) (listRes : ListResult) (now : Nat)
    (l1 l2 : Int) (ps : List TopProduct) :
    uc.GetTopProducts listRes now l1 = uc.GetTopProducts listRes now l2 ∧
    (uc.cache.Get ("top_products") = some (.vTop ps) →
      (uc.GetTopProducts listRes now l1).1.1 = .ok ps) := by
  refine ⟨rfl, fun h => ?_⟩
  unfold StatsUseCase.GetTopProducts
  rw [h]

/-- Witness for C10: a cache holding one top product, limits 5 and 0. -/
theorem getTopProducts_ignores_limit_witness :
    (StatsUseCase.mk
        (StatsCache.mk
          (fun k => if k = "top_products" then some (.vTop [⟨7, "Widget", 10, "reviews"⟩]) else none)
          [] [] 0) 0 10).GetTopProducts (.ok ([], 0)) 1 5 =
      (StatsUseCase.mk
        (StatsCache.mk
          (fun k => if k = "top_products" then some (.vTop [⟨7, "Widget", 10, "reviews"⟩]) else none)
          [] [] 0) 0 10).GetTopProducts (.ok ([], 0)) 1 0 ∧
    ((StatsUseCase.mk
        (StatsCache.mk
          (fun k => if k = "top_products" then some (.vTop [⟨7, "Widget", 10, "reviews"⟩]) else none)
          [] [] 0) 0 10).GetTopProducts (.ok ([], 0)) 1 5).1.1 =
      .ok [⟨7, "Widget", 10, "reviews"⟩] :=
  ⟨(getTopProducts_ignores_limit _ (.ok ([], 0)) 1 5 0 [⟨7, "Widget", 10, "reviews"⟩]).1,
   (getTopProducts_ignores_limit _ (.ok ([], 0)) 1 5 0 [⟨7, "Widget", 10, "reviews"⟩]).2 rfl⟩

/-- C2 counterexample: the no-torn-read claim fails.  Starting from the
empty cache, run the refresh cycle whose product count is 42 at time 5 and
let a concurrent `GetAll` execute after the first of the seven cache
writes (the cache mutex is released between writes, and readers do not
hold the use-case mutex while calling into the cache, so this interleaving
is schedulable).  The observed mapping matches neither the snapshot before
the cycle nor the snapshot after it: it holds `total_products` from the
new cycle but is missing `total_users`, which every completed cycle
writes. -/
theorem getAll_torn_read_counterexample :
    ¬ (∀ k ≤ (refreshWrites 42).length,
        (applyOps NewStatsCache ((refreshWrites 42).take k) 5).GetAll = NewStatsCache.GetAll ∨
        (applyOps NewStatsCache ((refreshWrites 42).take k) 5).GetAll =
          (applyOps NewStatsCache (refreshWrites 42) 5).GetAll) := by
  intro h
  rcases h 1 (by decide) with h1 | h1
  · exact absurd (congrFun h1 ("total_products")) (by decide)
  · exact absurd (congrFun h1 ("total_users")) (by decide)

/-- C2 amended: a read that does not overlap the write phase of the
refresh cycle observes exactly one cycle: a `GetAll` scheduled before the
first cache write returns precisely the previous snapshot, and one
scheduled after the last cache write returns precisely the new snapshot;
only a read scheduled between two of the seven writes can observe a
mixture. -/
theorem getAll_single_cycle_outside_write_phase (c0 : StatsCache) (productCount : Int)
    (now : Nat) :
    (applyOps c0 ((refreshWrites productCount).take 0) now).GetAll = c0.GetAll ∧
    (applyOps c0 ((refreshWrites productCount).take (refreshWrites productCount).length)
        now).GetAll = (applyOps c0 (refreshWrites productCount) now).GetAll := by
  constructor
  · rfl
  · rw [List.take_length]

/-- C3 counterexample: with a cold cache (no `top_products` entry) and an
unavailable product-count source, `GetTopProducts` performs its one
refresh attempt, the value is still unavailable afterwards, and the call
returns the refresh error — not an empty list with no error as the claim
states. -/
theorem getTopProducts_cold_error_counterexample :
    (StatsUseCase.mk NewStatsCache 0 10).cache.Get ("top_products") = none ∧
    ((StatsUseCase.mk NewStatsCache 0 10).GetTopProducts (.error ⟨"db down"⟩) 0 5).2 = 1 ∧
    ((StatsUseCase.mk NewStatsCache 0 10).GetTopProducts
        (.error ⟨"db down"⟩) 0 5).1.2.cache.Get ("top_products") = none ∧
    ((StatsUseCase.mk NewStatsCache 0 10).GetTopProducts (.error ⟨"db down"⟩) 0 5).1.1 =
      .error ⟨"db down"⟩ ∧
    ((StatsUseCase.mk NewStatsCache 0 10).GetTopProducts (.error ⟨"db down"⟩) 0 5).1.1 ≠
      .ok [] := by
  refine ⟨rfl, rfl, rfl, rfl, fun h => ?_⟩
  exact Except.noConfusion
    (show Except.error ⟨"db down"⟩ = (Except.ok [] : Except GoError (List TopProduct)) from h)

/-- C3 amended: when the cache has no valid `top_products` entry,
`GetTopProducts` performs exactly one refresh attempt; if that refresh
fails it returns the refresh error, and if it succeeds it returns the
refreshed (possibly empty) list with no error. -/
theorem getTopProducts_cold_refreshes_once (uc : StatsUseCase) (listRes : ListResult)
    (now : Nat) (limit : Int) (hcold : uc.cache.Get ("top_products") = none) :
    (uc.GetTopProducts listRes now limit).2 = 1 ∧
    uc.GetTopProducts listRes now limit =
      (match listRes with
       | .error e => ((.error e, uc), 1)
       | .ok _ => ((.ok [], (uc.RefreshStats listRes now).2), 1)) := by
  have hG : uc.GetTopProducts listRes now limit =
      (match listRes with
       | .error e => ((.error e, uc), 1)
       | .ok _ => ((.ok [], (uc.RefreshStats listRes now).2), 1)) := by
    unfold StatsUseCase.GetTopProducts
    rw [hcold]
    rcases listRes with e | ⟨ps, pc⟩
    · rfl
    · rfl
  refine ⟨?_, hG⟩
  rw [hG]
  rcases listRes with e | pr
  · rfl
  · rfl

/-- Witness for the amended C3: a cold use case whose refresh fails. -/
theorem getTopProducts_cold_refreshes_once_witness :
    ((StatsUseCase.mk NewStatsCache 0 10).GetTopProducts (.error ⟨"down"⟩) 2 5).2 = 1 ∧
    (StatsUseCase.mk NewStatsCache 0 10).GetTopProducts (.error ⟨"down"⟩) 2 5 =
      ((.error ⟨"down"⟩, StatsUseCase.mk NewStatsCache 0 10), 1) :=
  getTopProducts_cold_refreshes_once (StatsUseCase.mk NewStatsCache 0 10)
    (.error ⟨"down"⟩) 2 5 rfl

/-- C4 counterexample: with an empty cache, a stale timestamp, and a
failing refresh, each of `GetStats`, `GetCategoryStats` and
`GetWishlistStats` returns the refresh error to the caller — not an
empty/default response as the claim states. -/
theorem readPath_cold_failure_counterexample :
    ((StatsUseCase.mk NewStatsCache 0 10).GetStats (.error ⟨"db down"⟩) 100).1 =
      .error ⟨"db down"⟩ ∧
    ((StatsUseCase.mk NewStatsCache 0 10).GetCategoryStats (.error ⟨"db down"⟩)
        (.ok []) 100).1 = .error ⟨"db down"⟩ ∧
    ((StatsUseCase.mk NewStatsCache 0 10).GetWishlistStats (.error ⟨"db down"⟩)
        (fun _ => .ok none) 100).1 = .error ⟨"db down"⟩ ∧
    (∀ v, ((StatsUseCase.mk NewStatsCache 0 10).GetStats (.error ⟨"db down"⟩) 100).1 ≠
      .ok v) := by
  refine ⟨rfl, rfl, rfl, fun v h => ?_⟩
  exact Except.noConfusion
    (show (Except.error (GoError.mk ("db down")) :
        Except GoError (String → Option CacheVal)) = Except.ok v from h)

/-- C4 amended: in a state where the cache holds no data, the snapshot is
stale, and the internally triggered refresh fails, every read-path call
(`GetStats`, `GetCategoryStats`, `GetWishlistStats`) returns the refresh
error rather than an empty/default response. -/
theorem readPath_cold_failure_returns_error (uc : StatsUseCase) (e : GoError) (now : Nat)
    (findByID : Nat → Except GoError (Option Product))
    (catsRes : Except GoError (List Category))
    (hcat : uc.cache.categoryCounts = [])
    (hwish : uc.cache.wishlistCounts = [])
    (hstale : uc.refreshTimeout < now - uc.lastRefresh) :
    (uc.GetStats (.error e) now).1 = .error e ∧
    (uc.GetCategoryStats (.error e) catsRes now).1 = .error e ∧
    (uc.GetWishlistStats (.error e) findByID now).1 = .error e := by
  refine ⟨?_, ?_, ?_⟩
  · unfold StatsUseCase.GetStats
    rw [if_pos hstale]
    rfl
  · unfold StatsUseCase.GetCategoryStats StatsCache.GetCategoryCounts
    rw [hcat]
    rfl
  · unfold StatsUseCase.GetWishlistStats StatsCache.GetWishlistCounts
    rw [hwish]
    rfl

/-- Witness for the amended C4 at the empty cache with a stale clock. -/
theorem readPath_cold_failure_returns_error_witness :
    ((StatsUseCase.mk NewStatsCache 0 10).GetStats (.error ⟨"nope"⟩) 100).1 =
      .error ⟨"nope"⟩ ∧
    ((StatsUseCase.mk NewStatsCache 0 10).GetCategoryStats (.error ⟨"nope"⟩)
        (.ok [⟨1, "Books"⟩]) 100).1 = .error ⟨"nope"⟩ ∧
    ((StatsUseCase.mk NewStatsCache 0 10).GetWishlistStats (.error ⟨"nope"⟩)
        (fun _ => .ok none) 100).1 = .error ⟨"nope"⟩ :=
  readPath_cold_failure_returns_error (StatsUseCase.mk NewStatsCache 0 10) ⟨"nope"⟩ 100
    (fun _ => .ok none) (.ok [⟨1, "Books"⟩]) rfl rfl (by decide)

/-- C5: the code contradicts the claimed (and clearly intended, per the
function's own doc comment and the `TODO` markers) flow of top-product
data.  With the product-count source reporting 42, a successful refresh
does store `total_products = 42`, but the top-products task is a stub that
never consults any source, so `GetTopProducts` afterwards returns the
empty list rather than the single entry with id 7 that the top-products
source reported. -/
theorem refresh_top_products_stubbed_code_bug :
    ((StatsUseCase.mk NewStatsCache 0 10).RefreshStats (.ok ([], 42)) 1).1 = .ok () ∧
    ((StatsUseCase.mk NewStatsCache 0 10).RefreshStats
        (.ok ([], 42)) 1).2.cache.GetAll "total_products" = some (.vInt 42) ∧
    (
      (((StatsUseCase.mk NewStatsCache 0 10).RefreshStats
        (.ok ([], 42)) 1).2.GetTopProducts (.ok ([], 42)) 2 5).1.1 = .ok []) ∧
    (
      (((StatsUseCase.mk NewStatsCache 0 10).RefreshStats
        (.ok ([], 42)) 1).2.GetTopProducts (.ok ([], 42)) 2 5).1.1 ≠
        .ok [⟨7, "Widget", 10, "reviews"⟩]) := by
  refine ⟨rfl, rfl, rfl, fun h => ?_⟩
  have h' : ([] : List TopProduct) = [⟨7, "Widget", 10, "reviews"⟩] := by
    injection
      (show (Except.ok [] : Except GoError (List TopProduct)) =
        .ok [⟨7, "Widget", 10, "reviews"⟩] from h)
  exact List.noConfusion h'

/-- The first category with a matching ID is not found exactly when no
category matches, in which case the loop's initial "Unknown" survives. -/
theorem resolveCategoryName_eq_unknown {categories : List Category} {id : Nat}
    (h : ∀ cat ∈ categories, cat.id ≠ id) :
    resolveCategoryName categories id = "Unknown" := by
  unfold resolveCategoryName
  have hf : categories.find? (fun cat => cat.id == id) = none :=
    List.find?_eq_none.mpr (fun cat hc => by simpa using h cat hc)
  rw [hf]

/-- C6: every entry of the cached category-counts map whose ID matches no
category returned by the category repository appears in the
`GetCategoryStats` result with name "Unknown", and the call succeeds,
returning one stat per cached entry with the loop's name resolution. -/
theorem getCategoryStats_unknown_placeholder (uc : StatsUseCase) (listRes : ListResult)
    (categories : List Category) (id : Nat) (count : Int) (now : Nat)
    (hmem : (id, count) ∈ uc.cache.GetCategoryCounts)
    (hnomatch : ∀ cat ∈ categories, cat.id ≠ id) :
    (uc.GetCategoryStats listRes (.ok categories) now).1 =
      .ok (uc.cache.GetCategoryCounts.map
        (fun p => ⟨p.1, resolveCategoryName categories p.1, p.2⟩)) ∧
    (⟨id, "Unknown", count⟩ : CategoryStat) ∈
      uc.cache.GetCategoryCounts.map
        (fun p => ⟨p.1, resolveCategoryName categories p.1, p.2⟩) := by
  have hlen : ¬ (uc.cache.GetCategoryCounts.length = 0) := by
    simpa [List.length_eq_zero] using List.ne_nil_of_mem hmem
  constructor
  · simp only [StatsUseCase.GetCategoryStats]
    rw [if_neg hlen]
  · exact List.mem_map.mpr ⟨(id, count), hmem,
      by simp [resolveCategoryName_eq_unknown hnomatch]⟩

/-- Witness for C6: cached count for category 3, repository knows only
category 1. -/
theorem getCategoryStats_unknown_placeholder_witness :
    ((StatsUseCase.mk (StatsCache.mk (fun _ => none) [(3, 5)] [] 0) 0 10).GetCategoryStats
        (.ok ([], 0)) (.ok [⟨1, "Books"⟩]) 2).1 = .ok [⟨3, "Unknown", 5⟩] ∧
    (⟨3, "Unknown", 5⟩ : CategoryStat) ∈ [(⟨3, "Unknown", 5⟩ : CategoryStat)] :=
  ⟨(getCategoryStats_unknown_placeholder
      (StatsUseCase.mk (StatsCache.mk (fun _ => none) [(3, 5)] [] 0) 0 10)
      (.ok ([], 0)) [⟨1, "Books"⟩] 3 5 2 (by decide) (by decide)).1,
   (getCategoryStats_unknown_placeholder
      (StatsUseCase.mk (StatsCache.mk (fun _ => none) [(3, 5)] [] 0) 0 10)
      (.ok ([], 0)) [⟨1, "Books"⟩] 3 5 2 (by decide) (by decide)).2⟩

/-- The wishlist collection loop keeps exactly the entries whose product
lookup returns a product; stated from the claim's words, to be compared
with the loop `collectWishlistStats` taken from the source. -/
def wishlistStatsSpec (findByID : Nat → Except GoError (Option Product))
    (counts : CountMap) : List WishlistStat :=
  counts.filterMap fun p =>
    match findByID p.1 with
    | .ok (some product) => some ⟨p.1, product.name, p.2⟩
    | _ => none

theorem foldl_wishlistStep_append (findByID : Nat → Except GoError (Option Product))
    (counts : CountMap) (acc : List WishlistStat) :
    counts.foldl (wishlistStep findByID) acc = acc ++ wishlistStatsSpec findByID counts := by
  induction counts generalizing acc with
  | nil => simp [wishlistStatsSpec]
  | cons p t ih =>
    rw [List.foldl_cons, ih]
    rcases hf : findByID p.1 with e | op
    · simp [wishlistStep, wishlistStatsSpec, List.filterMap_cons, hf]
    · rcases op with _ | product
      · simp [wishlistStep, wishlistStatsSpec, List.filterMap_cons, hf]
      · simp [wishlistStep, wishlistStatsSpec, List.filterMap_cons, hf]

theorem collectWishlistStats_eq_spec (findByID : Nat → Except GoError (Option Product))
    (counts : CountMap) :
    collectWishlistStats findByID counts = wishlistStatsSpec findByID counts := by
  unfold collectWishlistStats
  rw [foldl_wishlistStep_append]
  simp

/-- C7: for a non-empty cached wishlist-counts map, `GetWishlistStats`
returns `ok` of exactly one entry per counted product whose lookup
succeeds with a product, omits every entry whose lookup fails or returns
nothing, and reports no error for such per-entry failures. -/
theorem getWishlistStats_skips_failed_lookups (uc : StatsUseCase) (listRes : ListResult)
    (findByID : Nat → Except GoError (Option Product)) (now : Nat)
    (hne : uc.cache.GetWishlistCounts ≠ []) :
    (uc.GetWishlistStats listRes findByID now).1 =
      .ok (wishlistStatsSpec findByID uc.cache.GetWishlistCounts) ∧
    (∀ id count product, (id, count) ∈ uc.cache.GetWishlistCounts →
      findByID id = .ok (some product) →
      (⟨id, product.name, count⟩ : WishlistStat) ∈
        wishlistStatsSpec findByID uc.cache.GetWishlistCounts) ∧
    (∀ id count, (id, count) ∈ uc.cache.GetWishlistCounts →
      (∀ product, findByID id ≠ .ok (some product)) →
      ∀ s ∈ wishlistStatsSpec findByID uc.cache.GetWishlistCounts, s.productID ≠ id) := by
  refine ⟨?_, ?_, ?_⟩
  · have hlen : ¬ (uc.cache.GetWishlistCounts.length = 0) := by
      simpa [List.length_eq_zero] using hne
    simp only [StatsUseCase.GetWishlistStats]
    rw [if_neg hlen, collectWishlistStats_eq_spec]
  · intro id count product hmem hf
    exact List.mem_filterMap.mpr ⟨(id, count), hmem, by simp [hf]⟩
  · intro id count hmem hnof s hs hsid
    obtain ⟨p, hp, hgp⟩ := List.mem_filterMap.mp hs
    rcases hf : findByID p.1 with e | op
    · rw [hf] at hgp
      exact Option.noConfusion hgp
    · rcases op with _ | product
      · rw [hf] at hgp
        exact Option.noConfusion hgp
      · rw [hf] at hgp
        injection hgp with hgp'
        subst hgp'
        simp only [WishlistStat.productID] at hsid
        exact hnof product (by rw [← hsid]; exact hf)

/-- Witness for C7: counts for products 1 and 2; the lookup for 1 yields a
product, the lookup for 2 fails; the result is the single entry for 1. -/
theorem getWishlistStats_skips_failed_lookups_witness :
    ((StatsUseCase.mk (StatsCache.mk (fun _ => none) [] [(1, 3), (2, 4)] 0) 0 10).GetWishlistStats
        (.ok ([], 0))
        (fun id => if id = 1 then .ok (some ⟨1, "Widget"⟩) else .error ⟨"gone"⟩) 2).1 =
      .ok [⟨1, "Widget", 3⟩] :=
  (getWishlistStats_skips_failed_lookups
      (StatsUseCase.mk (StatsCache.mk (fun _ => none) [] [(1, 3), (2, 4)] 0) 0 10)
      (.ok ([], 0))
      (fun id => if id = 1 then .ok (some ⟨1, "Widget"⟩) else .error ⟨"gone"⟩) 2
      (by decide)).1

end ProductStats
